import Mathlib

/-!
Verification of the iio_keyboard_backlight brightness daemon.

The Rust sources are embedded shallowly: machine integers become Nat/Int
with explicit wrapping or saturation where the Rust operation has it,
floating-point pipeline values become real numbers, and fallible or
stateful operations become explicit state passing with Option/Except.
-/

namespace IioKbdBacklight

/-! ## Keyboard mapper (src/kbd_brightness.rs) -/

/-- The step table of KBDBrightness.adjust (kbd_brightness.rs lines 33-39):
match on the ambient percentage with guards v < 50, v < 60, v < 80, else 0. -/
def kbdNewLevel (v : ℕ) : ℕ :=
  if v < 50 then 3 else if v < 60 then 2 else if v < 80 then 1 else 0

/-- First-match lookup over an ordered list of (upper bound, result) pairs,
written from the words of the spec (section 9: keep threshold tables as
explicit ordered arrays of (upper_bound, result) pairs evaluated with a
first-match rule). -/
def lookupFirst : List (ℕ × ℕ) → ℕ → ℕ → ℕ
  | [], d, _ => d
  | (ub, r) :: rest, d, v => if v < ub then r else lookupFirst rest d v

/-- The keyboard table as the spec words it: pct<50 -> 3, pct<60 -> 2,
pct<80 -> 1, else 0. -/
def kbdSpecTable : List (ℕ × ℕ) := [(50, 3), (60, 2), (80, 1)]

/-! ## Screen mapper (src/screen_brightness.rs) -/

/-- Rust u32 wrapping multiplication (release-build semantics). -/
def u32Mul (a b : ℕ) : ℕ := (a * b) % 2 ^ 32

/-- Rust u32 saturating_add. -/
def u32SatAdd (a b : ℕ) : ℕ := min (a + b) (2 ^ 32 - 1)

/-- The 10-band step table of ScreenBrightness.adjust
(screen_brightness.rs lines 45-56). -/
def screenPctTable (v : ℕ) : ℕ :=
  if v < 1 then 5
  else if v < 10 then 10
  else if v < 20 then 15
  else if v < 30 then 20
  else if v < 40 then 25
  else if v < 50 then 30
  else if v < 60 then 35
  else if v < 70 then 40
  else if v < 80 then 45
  else 50

/-- The screen table as the spec words it. -/
def screenSpecTable : List (ℕ × ℕ) :=
  [(1, 5), (10, 10), (20, 15), (30, 20), (40, 25), (50, 30), (60, 35), (70, 40), (80, 45)]

/-- i8 wrap-around into [-128, 127] (release-build Rust i8 arithmetic). -/
def i8Wrap (z : ℤ) : ℤ := (z + 128) % 256 - 128

/-- ScreenBrightness.increase: self.offset += amount (i8 arithmetic). -/
def screenIncrease (off amount : ℤ) : ℤ := i8Wrap (off + amount)

/-- ScreenBrightness.decrease: self.offset -= amount (i8 arithmetic). -/
def screenDecrease (off amount : ℤ) : ℤ := i8Wrap (off - amount)

/-- The offset application in ScreenBrightness.adjust (lines 58-61): a match
on the sign of the stored offset whose two arms both saturating_add the
unsigned absolute value of the offset to the table percentage. -/
def offsetNewPct (v : ℕ) (off : ℤ) : ℕ :=
  if 0 ≤ off then u32SatAdd (screenPctTable v) off.natAbs
  else u32SatAdd (screenPctTable v) off.natAbs

/-- ScreenBrightness.pct_to_brightness: (pct * max_brightness) / 100 in u32. -/
def pct_to_brightness (maxB pct : ℕ) : ℕ := u32Mul pct maxB / 100

/-- The new_level computed by ScreenBrightness.adjust: the offset-adjusted
percentage converted to a device level and clamped at max_brightness. -/
def screenNewLevel (v maxB : ℕ) (off : ℤ) : ℕ :=
  min (pct_to_brightness maxB (offsetNewPct v off)) maxB

/-! ## Read-compare-write step shared by both mappers.

adjust reads the current device level, and writes only when the newly
computed level differs. The device is modelled by its current level; the
Bool records whether a write was issued. -/

/-- One call of KBDBrightness.adjust against a device at level cur. -/
def kbdAdjustStep (cur v : ℕ) : ℕ × Bool :=
  if cur ≠ kbdNewLevel v then (kbdNewLevel v, true) else (cur, false)

/-- One call of ScreenBrightness.adjust against a device at level cur. -/
def screenAdjustStep (cur v maxB : ℕ) (off : ℤ) : ℕ × Bool :=
  if cur ≠ screenNewLevel v maxB off then (screenNewLevel v maxB off, true) else (cur, false)

/-- Number of writes performed by two successive kbd adjust calls with the
same percentage and no external device change. -/
def kbdWritesTwice (cur v : ℕ) : ℕ :=
  (if (kbdAdjustStep cur v).2 then 1 else 0)
    + (if (kbdAdjustStep (kbdAdjustStep cur v).1 v).2 then 1 else 0)

/-- Number of writes performed by two successive screen adjust calls with the
same percentage and no external device change. -/
def screenWritesTwice (cur v maxB : ℕ) (off : ℤ) : ℕ :=
  (if (screenAdjustStep cur v maxB off).2 then 1 else 0)
    + (if (screenAdjustStep (screenAdjustStep cur v maxB off).1 v maxB off).2 then 1 else 0)

/-! ## Theorems for the mappers -/

lemma screenPctTable_le (v : ℕ) : screenPctTable v ≤ 50 := by
  unfold screenPctTable
  split_ifs <;> norm_num

lemma offsetNewPct_natAbs (v : ℕ) (off : ℤ) :
    offsetNewPct v off = min (screenPctTable v + off.natAbs) (2 ^ 32 - 1) := by
  unfold offsetNewPct u32SatAdd
  split_ifs <;> rfl

/-- Claim C1: the keyboard mapper computes the device level by the fixed step
table pct<50 -> 3, pct<60 -> 2, pct<80 -> 1, else 0 (half-open intervals,
first match), with the exact boundary values 49 -> 3, 50 -> 2, 59 -> 2,
60 -> 1, 79 -> 1, 80 -> 0. -/
theorem kbd_adjust_step_table :
    (∀ v : ℕ, kbdNewLevel v = lookupFirst kbdSpecTable 0 v)
    ∧ kbdNewLevel 49 = 3 ∧ kbdNewLevel 50 = 2 ∧ kbdNewLevel 59 = 2
    ∧ kbdNewLevel 60 = 1 ∧ kbdNewLevel 79 = 1 ∧ kbdNewLevel 80 = 0 := by
  refine ⟨fun v => ?_, by decide, by decide, by decide, by decide, by decide, by decide⟩
  simp only [kbdNewLevel, kbdSpecTable, lookupFirst]

/-- Claim C2: the screen mapper maps the ambient percentage through the
10-band step table (first-match, as the spec words it) and computes the
device level as floor(target_pct * max_brightness / 100) clamped at
max_brightness (stated at the default offset 0; the hypothesis rules out
u32 overflow of the multiplication, which wraps in the embedding as in a
release build). -/
theorem screen_adjust_table_and_level (v maxB : ℕ) (h : 50 * maxB < 2 ^ 32) :
    screenPctTable v = lookupFirst screenSpecTable 50 v
    ∧ screenNewLevel v maxB 0 = min (screenPctTable v * maxB / 100) maxB := by
  constructor
  · simp only [screenPctTable, screenSpecTable, lookupFirst]
  · have htab : screenPctTable v ≤ 50 := screenPctTable_le v
    have h1 : offsetNewPct v 0 = screenPctTable v := by
      rw [offsetNewPct_natAbs]
      simp only [Int.natAbs_zero, Nat.add_zero]
      exact min_eq_left (by omega)
    have h2 : screenPctTable v * maxB < 2 ^ 32 :=
      lt_of_le_of_lt (Nat.mul_le_mul_right maxB htab) h
    unfold screenNewLevel pct_to_brightness u32Mul
    rw [h1, Nat.mod_eq_of_lt h2]

/-- Witness for C2 at v = 42, maxB = 100. -/
theorem screen_adjust_table_and_level_witness :
    50 * 100 < 2 ^ 32
    ∧ (screenPctTable 42 = lookupFirst screenSpecTable 50 42
       ∧ screenNewLevel 42 100 0 = min (screenPctTable 42 * 100 / 100) 100) :=
  ⟨by norm_num, screen_adjust_table_and_level 42 100 (by norm_num)⟩

/-- Claim C3: the screen mapper adds abs(offset) to the table percentage
regardless of the sign of the offset, so opposite offsets give the same device
level; increase and decrease add and subtract the amount on the stored
signed offset without clamping (when no i8 overflow occurs); Increase(10)
then Decrease(3) from the initial offset 0 leaves +7, and adjust then adds
7 percentage points to the table value. -/
theorem screen_offset_policy (v maxB : ℕ) (off o n : ℤ)
    (hoff1 : -127 ≤ off) (hoff2 : off ≤ 127)
    (hi1 : -128 ≤ o + n) (hi2 : o + n ≤ 127)
    (hd1 : -128 ≤ o - n) (hd2 : o - n ≤ 127) :
    screenNewLevel v maxB off = screenNewLevel v maxB (-off)
    ∧ screenIncrease o n = o + n
    ∧ screenDecrease o n = o - n
    ∧ screenDecrease (screenIncrease 0 10) 3 = 7
    ∧ offsetNewPct v 7 = screenPctTable v + 7 := by
  refine ⟨?_, ?_, ?_, by decide, ?_⟩
  · unfold screenNewLevel
    rw [offsetNewPct_natAbs, offsetNewPct_natAbs, Int.natAbs_neg]
  · unfold screenIncrease i8Wrap
    rw [Int.emod_eq_of_lt (by omega) (by omega)]
    omega
  · unfold screenDecrease i8Wrap
    rw [Int.emod_eq_of_lt (by omega) (by omega)]
    omega
  · rw [offsetNewPct_natAbs]
    have := screenPctTable_le v
    have : screenPctTable v + (7 : ℤ).natAbs ≤ 57 := by omega
    omega

/-- Witness for C3 at v = 30, maxB = 100, off = 5, o = 10, n = 3. -/
theorem screen_offset_policy_witness :
    ((-127 : ℤ) ≤ 5 ∧ (5 : ℤ) ≤ 127 ∧ (-128 : ℤ) ≤ 10 + 3 ∧ (10 : ℤ) + 3 ≤ 127
      ∧ (-128 : ℤ) ≤ 10 - 3 ∧ (10 : ℤ) - 3 ≤ 127)
    ∧ (screenNewLevel 30 100 5 = screenNewLevel 30 100 (-5)
       ∧ screenIncrease 10 3 = 10 + 3
       ∧ screenDecrease 10 3 = 10 - 3
       ∧ screenDecrease (screenIncrease 0 10) 3 = 7
       ∧ offsetNewPct 30 7 = screenPctTable 30 + 7) :=
  ⟨by norm_num,
   screen_offset_policy 30 100 5 10 3 (by norm_num) (by norm_num) (by norm_num)
     (by norm_num) (by norm_num) (by norm_num)⟩

/-- Counterexample to claim C7 as stated: with the keyboard device already at
level 3 and ambient percentage 0 (target level 3), two successive adjust
calls perform zero writes, not exactly one. -/
theorem adjust_twice_zero_writes_cx : kbdWritesTwice 3 0 = 0 ∧ kbdWritesTwice 3 0 ≠ 1 := by
  decide

/-- Claim C7 amended: the adjust of each mapper reads the current device level and
writes only when the computed level differs, so two calls with the same
percentage and no external change perform at most one write - exactly one
when the initial level differs from the target and zero otherwise - and the
second call never writes. -/
theorem adjust_twice_at_most_one_write (cur v maxB : ℕ) (off : ℤ) :
    (kbdAdjustStep (kbdAdjustStep cur v).1 v).2 = false
    ∧ kbdWritesTwice cur v = (if cur = kbdNewLevel v then 0 else 1)
    ∧ (screenAdjustStep (screenAdjustStep cur v maxB off).1 v maxB off).2 = false
    ∧ screenWritesTwice cur v maxB off = (if cur = screenNewLevel v maxB off then 0 else 1) := by
  refine ⟨?_, ?_, ?_, ?_⟩
  · by_cases h : cur = kbdNewLevel v <;> simp [kbdAdjustStep, h]
  · by_cases h : cur = kbdNewLevel v <;> simp [kbdWritesTwice, kbdAdjustStep, h]
  · by_cases h : cur = screenNewLevel v maxB off <;> simp [screenAdjustStep, h]
  · by_cases h : cur = screenNewLevel v maxB off <;>
      simp [screenWritesTwice, screenAdjustStep, h]

/-! ## Smoothing engine (src/ambient_brightness.rs)

The floating-point pipeline is embedded over the real numbers. The sensor
read is abstracted: update takes the already-read value val = log10(raw) as
an input, faithful for raw readings >= 1. -/

/-- MAX_READING: the hard-coded sensor ceiling 2_500_000. -/
def MAX_READING : ℕ := 2500000

/-- self.max = (2500000 u32).ilog10(): Rust u32::ilog10 is the floor of the
base-10 logarithm, i.e. Nat.log 10. -/
def ambMax : ℕ := Nat.log 10 MAX_READING

/-- Modelled from the yata dependency (not vendored in the repository): the
state of yata::methods::WMA, a linearly weighted moving average. The window
holds the last period inputs, newest first. -/
structure Wma where
  window : List ℝ

/-- Weighted sum with weights n, n-1, ..., 1 from the head of the list
(the newest sample carries the largest weight). -/
def weightedSum : List ℝ → ℕ → ℝ
  | [], _ => 0
  | x :: xs, n => (n : ℝ) * x + weightedSum xs (n - 1)

/-- Modelled from the yata dependency: WMA::new(length, value) pre-fills the
window of the given length with the initial value. -/
def wmaNew (length : ℕ) (value : ℝ) : Wma := ⟨List.replicate length value⟩

/-- Modelled from the yata dependency: WMA::next pushes the new sample,
drops the oldest, and returns the linearly weighted average
sum_i weight_i * x_i / (n(n+1)/2). -/
noncomputable def wmaNext (s : Wma) (x : ℝ) : ℝ × Wma :=
  (weightedSum (x :: s.window.dropLast) (x :: s.window.dropLast).length
      / (((x :: s.window.dropLast).length : ℝ) * ((x :: s.window.dropLast).length + 1) / 2),
    ⟨x :: s.window.dropLast⟩)

/-- Modelled from the spec (section 4.1): the filter constructor fails if the
window size is invalid (yata rejects a zero length); otherwise it seeds the
window. -/
def wmaNewE (length : ℕ) (value : ℝ) : Except Unit Wma :=
  if length = 0 then .error () else .ok (wmaNew length value)

/-- AmbientBrightness.init: reads the first raw value, takes its log10 with
no clamping, and seeds WMA::new(10, initial). -/
noncomputable def ambientInit (raw0 : ℕ) : Except Unit Wma :=
  wmaNewE 10 (Real.logb 10 raw0)

/-- The clamp in AmbientBrightness.update: val.min(self.max as f64). -/
noncomputable def ambClamp (val : ℝ) : ℝ := min val (ambMax : ℝ)

/-- The percentage in AmbientBrightness.update:
(new_val * 100 f64) / self.max as f64. -/
noncomputable def ambPct (newVal : ℝ) : ℝ := newVal * 100 / (ambMax : ℝ)

/-- Rust f64::round: round half away from zero. -/
noncomputable def rustRound (x : ℝ) : ℤ := if 0 ≤ x then ⌊x + 1 / 2⌋ else -⌊-x + 1 / 2⌋

/-- Rust cast (as u32) of a rounded f64: a saturating cast (negative to 0,
too large to u32::MAX). -/
noncomputable def roundToU32 (x : ℝ) : ℕ := min (rustRound x).toNat (2 ^ 32 - 1)

/-- AmbientBrightness.update on filter state s, sensor log-value val and the
idle flag: clamp, feed the filter, convert to a percentage, quarter it when
idle, round and cast. -/
noncomputable def ambientUpdate (s : Wma) (val : ℝ) (idle : Bool) : ℕ × Wma :=
  let maxVal := ambClamp val
  let p := wmaNext s maxVal
  let newPct := ambPct p.1
  let idlemed := if idle then newPct / 4 else newPct
  (roundToU32 idlemed, p.2)

/-- The pre-rounding percentage of a non-idle update pass on state s and
sensor log-value val. -/
noncomputable def nonIdlePct (s : Wma) (val : ℝ) : ℝ := ambPct (wmaNext s (ambClamp val)).1

/-- AmbientBrightness.update as called on the struct: the filter is an
Option, and the None case is the expect panic
"AmbientBrightness not Initialized", modelled as none. -/
noncomputable def ambientUpdateChecked (wma : Option Wma) (val : ℝ) (idle : Bool) : Option (ℕ × Wma) :=
  match wma with
  | none => none
  | some s => some (ambientUpdate s val idle)

/-! ## Theorems for the smoothing engine -/

lemma ambMax_eq_six : ambMax = 6 := by
  unfold ambMax MAX_READING
  exact Nat.log_eq_of_pow_le_of_lt_pow (by norm_num) (by norm_num)

lemma logb_ten_pow (n : ℕ) : Real.logb 10 ((10 : ℝ) ^ n) = n := by
  rw [Real.logb_pow, Real.logb_self_eq_one (by norm_num)]
  ring

/-- Claim C4: with idle set, update returns exactly the idle=false
pre-rounding percentage divided by 4, the division applied before rounding;
the two runs share the sample, the state and the successor state. -/
theorem idle_quarters_before_rounding (s : Wma) (val : ℝ) :
    (ambientUpdate s val true).1 = roundToU32 (nonIdlePct s val / 4)
    ∧ (ambientUpdate s val false).1 = roundToU32 (nonIdlePct s val)
    ∧ (ambientUpdate s val true).2 = (ambientUpdate s val false).2 :=
  ⟨rfl, rfl, rfl⟩

/-- Counterexample to claim C5 as stated: at the raw reading 2_000_000 the
code clamps log10(raw) down to 6 (the floored exponent), while the claimed
ceiling log10(MAX_READING) would leave it unclamped; the two clamps differ. -/
theorem clamp_ceiling_cx :
    ambClamp (Real.logb 10 2000000)
      ≠ min (Real.logb 10 2000000) (Real.logb 10 MAX_READING) := by
  have h6 : (6 : ℝ) < Real.logb 10 2000000 := by
    have h := logb_ten_pow 6
    calc (6 : ℝ) = Real.logb 10 ((10 : ℝ) ^ (6 : ℕ)) := by rw [h]; norm_num
    _ < Real.logb 10 2000000 := by
        apply Real.logb_lt_logb (by norm_num) (by positivity)
        norm_num
  have hlt : Real.logb 10 2000000 < Real.logb 10 MAX_READING := by
    apply Real.logb_lt_logb (by norm_num) (by norm_num)
    unfold MAX_READING
    norm_num
  have hclamp : ambClamp (Real.logb 10 2000000) = 6 := by
    unfold ambClamp
    rw [ambMax_eq_six]
    exact min_eq_right (by push_cast; linarith)
  have hspec : min (Real.logb 10 2000000) (Real.logb 10 MAX_READING)
      = Real.logb 10 2000000 := min_eq_left hlt.le
  rw [hclamp, hspec]
  intro h
  rw [← h] at h6
  exact lt_irrefl _ h6

/-- Claim C5 amended: the clamp ceiling is the floored exponent
max = ilog10(MAX_READING) = 6 itself, the same constant used as the
percentage divisor: update clamps log10(raw) at 6 and computes
pct = filtered_value * 100 / 6. -/
theorem clamp_and_divisor_floored_exponent :
    ambMax = 6
    ∧ (∀ val : ℝ, ambClamp val = min val 6)
    ∧ (∀ newVal : ℝ, ambPct newVal = newVal * 100 / 6) := by
  refine ⟨ambMax_eq_six, fun val => ?_, fun newVal => ?_⟩
  · unfold ambClamp
    rw [ambMax_eq_six]
    norm_num
  · unfold ambPct
    rw [ambMax_eq_six]
    norm_num

/-- Claim C10: update on an engine whose filter was never initialized hits
the expect panic (modelled as none); on any engine produced by a successful
init the filter is present and update is total up to sensor errors. -/
theorem update_requires_init (val : ℝ) (idle : Bool) (s : Wma) (raw0 : ℕ) :
    ambientUpdateChecked none val idle = none
    ∧ (ambientUpdateChecked (some s) val idle).isSome = true
    ∧ (∀ w : Wma, ambientInit raw0 = .ok w →
        (ambientUpdateChecked (some w) val idle).isSome = true) :=
  ⟨rfl, rfl, fun _ _ => rfl⟩

/-- Witness for C10 at val = 3, idle = false, the seed state of init on the
reading 100. -/
theorem update_requires_init_witness :
    ambientUpdateChecked none 3 false = none
    ∧ (ambientUpdateChecked (some (wmaNew 10 1)) 3 false).isSome = true
    ∧ (ambientUpdateChecked (some (wmaNew 10 (Real.logb 10 100))) 3 false).isSome = true :=
  ⟨(update_requires_init 3 false (wmaNew 10 1) 100).1,
   (update_requires_init 3 false (wmaNew 10 1) 100).2.1,
   (update_requires_init 3 false (wmaNew 10 1) 100).2.2 (wmaNew 10 (Real.logb 10 100)) rfl⟩

/-! ## The plain-mean reference filter of the spec, and the WMA against it -/

/-- The state of the reference filter of the spec: the inputs seen so far,
newest first, capped at the window size. -/
structure MeanFilter where
  window : List ℝ

/-- Modelled from the spec (section 4.1 step 3): the reference filter starts
from the single seed input. -/
def meanNew (value : ℝ) : MeanFilter := ⟨[value]⟩

/-- Modelled from the spec (section 4.1 step 3): simple arithmetic mean of
the last up-to-n inputs, accumulating until the window fills. -/
noncomputable def meanNext (n : ℕ) (s : MeanFilter) (x : ℝ) : ℝ × MeanFilter :=
  (((x :: s.window).take n).sum / (((x :: s.window).take n).length : ℝ),
    ⟨(x :: s.window).take n⟩)

lemma wma_step_from_seed (c x : ℝ) :
    (wmaNext (wmaNew 10 c) x).1 = (9 * c + 2 * x) / 11
    ∧ (wmaNext (wmaNew 10 c) x).2.window = x :: List.replicate 9 c := by
  have key : (wmaNext (wmaNew 10 c) x).1
      = weightedSum (x :: [c, c, c, c, c, c, c, c, c]) 10 / ((10 : ℝ) * ((10 : ℝ) + 1) / 2) :=
    rfl
  constructor
  · rw [key]
    simp only [weightedSum]
    norm_num
    ring_nf
  · rfl

/-- Counterexample to claim C6 as stated: seeding both filters with 0 and
feeding the single input 11, the filter of the code returns 2 (weighted average
over the pre-filled window) while the simple accumulating arithmetic mean of
the inputs seen returns 11/2. -/
theorem wma_not_plain_mean_cx :
    (wmaNext (wmaNew 10 0) 11).1 ≠ (meanNext 10 (meanNew 0) 11).1 := by
  have h1 := (wma_step_from_seed 0 11).1
  have h2 : (meanNext 10 (meanNew 0) 11).1 = ([11, 0] : List ℝ).sum / (2 : ℝ) := rfl
  rw [h1, h2]
  norm_num

/-- Claim C6 amended: the filter fed by update is the WMA of yata, a linearly
weighted moving average of window 10 whose window is pre-filled with the
seed value, not a simple unweighted accumulating mean: one step after
seeding with c, input x yields (9c + 2x)/11, and the window holds x
followed by nine copies of the seed. -/
theorem wma_weighted_prefilled (c x : ℝ) :
    (wmaNext (wmaNew 10 c) x).1 = (9 * c + 2 * x) / 11
    ∧ (wmaNext (wmaNew 10 c) x).2.window = x :: List.replicate 9 c :=
  wma_step_from_seed c x

/-! ## Theorems for init (claim C8) -/

lemma logb_ten_10000000 : Real.logb 10 ((10000000 : ℕ) : ℝ) = 7 := by
  rw [show ((10000000 : ℕ) : ℝ) = (10 : ℝ) ^ (7 : ℕ) by norm_num, logb_ten_pow]
  norm_num

/-- Counterexample to claim C8 as stated: at the first raw reading 10_000_000
init seeds the filter with log10(10_000_000) = 7, not with the log10 of the
clamped reading min(10_000_000, MAX_READING) = 2_500_000, whose log10 is
strictly below 7: no clamping happens at init. -/
theorem init_seed_unclamped_cx :
    ambientInit 10000000 = Except.ok (wmaNew 10 7)
    ∧ Real.logb 10 ((min 10000000 MAX_READING : ℕ) : ℝ) ≠ 7 := by
  constructor
  · unfold ambientInit wmaNewE
    rw [if_neg (by norm_num), logb_ten_10000000]
  · have hmin : (min 10000000 MAX_READING : ℕ) = 2500000 := by
      unfold MAX_READING
      norm_num
    rw [hmin]
    have hlt : Real.logb 10 ((2500000 : ℕ) : ℝ) < 7 := by
      rw [← logb_ten_10000000]
      apply Real.logb_lt_logb (by norm_num) (by norm_num)
      norm_num
    exact ne_of_lt hlt

/-- Claim C8 amended: init seeds the window-10 filter with the log10 of the
first raw reading with no clamping applied, succeeding for every positive
first reading; the filter constructor rejects an invalid (zero) window
size. -/
theorem init_seeds_unclamped_log (raw0 : ℕ) (h : 0 < raw0) :
    ambientInit raw0 = Except.ok (wmaNew 10 (Real.logb 10 raw0))
    ∧ wmaNewE 0 (Real.logb 10 raw0) = Except.error () := by
  refine ⟨?_, rfl⟩
  unfold ambientInit wmaNewE
  norm_num

/-- Witness for C8 amended at raw0 = 100. -/
theorem init_seeds_unclamped_log_witness :
    0 < 100
    ∧ (ambientInit 100 = Except.ok (wmaNew 10 (Real.logb 10 100))
       ∧ wmaNewE 0 (Real.logb 10 100) = Except.error ()) :=
  ⟨by norm_num, init_seeds_unclamped_log 100 (by norm_num)⟩

/-! ## Control channel (src/control_server.rs) -/

/-- The command set sent from the control channel to the scheduler. -/
inductive Command where
  | Idle : Command
  | Active : Command
  | Increase : ℤ → Command
  | Decrease : ℤ → Command
deriving DecidableEq

/-- Reinterpret one byte as a Rust i8 (read_i8), in the twos-complement way. -/
def toI8 (n : ℕ) : ℤ := if n < 128 then (n : ℤ) else (n : ℤ) - 256

/-- The per-connection decode of ControlServer::run (control_server.rs lines
117-129): read one opcode byte (error if none arrives), for opcodes 2 and 3
read one additional signed byte as the amount, forward the decoded command;
any other opcode produces no command and no error. -/
def decodeConn : List ℕ → Except Unit (Option Command)
  | [] => .error ()
  | b :: rest =>
    if b = 0 then .ok (some .Idle)
    else if b = 1 then .ok (some .Active)
    else if b = 2 then
      match rest with
      | [] => .error ()
      | n :: _ => .ok (some (.Increase (toI8 n)))
    else if b = 3 then
      match rest with
      | [] => .error ()
      | n :: _ => .ok (some (.Decrease (toI8 n)))
    else .ok none

/-- Claim C9: the control channel decodes opcode 0 to Idle, 1 to Active, 2
to Increase of the following signed byte, 3 to Decrease of the following
signed byte, and every opcode of 4 or above to no command and no error. -/
theorem control_decode_opcodes (b n : ℕ) (rest : List ℕ) (hb : 4 ≤ b) :
    decodeConn (0 :: rest) = .ok (some .Idle)
    ∧ decodeConn (1 :: rest) = .ok (some .Active)
    ∧ decodeConn (2 :: n :: rest) = .ok (some (.Increase (toI8 n)))
    ∧ decodeConn (3 :: n :: rest) = .ok (some (.Decrease (toI8 n)))
    ∧ decodeConn (b :: rest) = .ok none := by
  refine ⟨rfl, rfl, rfl, rfl, ?_⟩
  simp only [decodeConn]
  rw [if_neg (by omega), if_neg (by omega), if_neg (by omega), if_neg (by omega)]

/-- Witness for C9 at opcode 7, amount byte 200, empty remainder. -/
theorem control_decode_opcodes_witness :
    4 ≤ 7
    ∧ (decodeConn [0] = .ok (some .Idle)
       ∧ decodeConn [1] = .ok (some .Active)
       ∧ decodeConn [2, 200] = .ok (some (.Increase (toI8 200)))
       ∧ decodeConn [3, 200] = .ok (some (.Decrease (toI8 200)))
       ∧ decodeConn [7] = .ok none) :=
  ⟨by norm_num, control_decode_opcodes 7 200 [] (by norm_num)⟩

end IioKbdBacklight
